import Mathlib

/-!
Shallow embedding of the CSend python client (`csend_client.py`) and the
chatbot auxiliary policies (`csend_chatbot.py`).  Pure data is translated
directly; the asyncio state (the `_response_futures` dict, the `_running`
flag, handler tables) becomes an explicit `ClientState` record, and the
read loop becomes a recursive function over the list of lines arriving on
the child's stdout.  Handlers are modelled observationally: invoking one
is recorded as a pair (handler id, whether it raised — the exception being
swallowed by `_call_handler`).
-/

namespace Csend

/-- JSON object payload carried in the `data` field of a frame; modelled as
a flat association of string keys to string values (the client never
inspects the payload beyond truthiness and forwarding). -/
abbrev Payload := List (String × String)

/-- Decoded JSON frame: the fields of the wire object that `_handle_message`
reads (`type`, `id`, `event`, `data`). -/
structure Frame where
  type : String
  id : Option String := none
  event : Option String := none
  data : Option Payload := none
deriving DecidableEq, Repr

/-- One line read from the child's stdout: either it decodes (json.loads
succeeds, giving a frame) or it is malformed (json.loads raises
JSONDecodeError). -/
inductive Line where
  | json (f : Frame)
  | malformed (s : String)
deriving DecidableEq, Repr

/-- Frame decoder: `json.loads` on a line — success yields the frame,
a malformed line yields no frame. -/
def decodeLine : Line → Option Frame
  | .json f => some f
  | .malformed _ => none

/-- State of an asyncio Future held in `_response_futures`: pending, or
resolved with the frame passed to `set_result`. -/
inductive FutState where
  | pending
  | resolved (f : Frame)
deriving DecidableEq, Repr

/-- The `_response_futures` dict: correlation id to future state,
insertion-ordered as a python dict is. -/
abbrev Registry := List (String × FutState)

/-- Dict lookup (`futs[cid]` / `cid in futs`). -/
def lookupFut : Registry → String → Option FutState
  | [], _ => none
  | (k, v) :: rest, key => if k = key then some v else lookupFut rest key

/-- Dict assignment `futs[cid] = v`: overwrite in place if present,
append otherwise. -/
def setFut : Registry → String → FutState → Registry
  | [], key, v => [(key, v)]
  | (k, w) :: rest, key, v =>
      if k = key then (key, v) :: rest else (k, w) :: setFut rest key v

/-- Dict removal `futs.pop(cid, None)`. -/
def popFut : Registry → String → Registry
  | [], _ => []
  | (k, w) :: rest, key => if k = key then rest else (k, w) :: popFut rest key

/-- Registered subscriber, identified by a number; `raises` says whether
invoking it raises an exception (which `_call_handler` swallows). -/
structure Handler where
  hid : Nat
  raises : Bool
deriving DecidableEq, Repr

/-- Model of `_call_handler`: the handler is invoked and any exception it
raises is caught; the observable record is (handler id, raised?). -/
def call_handler (h : Handler) : Nat × Bool := (h.hid, h.raises)

/-- Lookup in the `_event_handlers` table (`dict.get(key, [])`). -/
def lookupHandlers : List (String × List Handler) → String → List Handler
  | [], _ => []
  | (k, hs) :: rest, key => if k = key then hs else lookupHandlers rest key

/-- Mutable state of a `CSendClient` instance: the `_running` flag, the
`_response_futures` dict, the `_next_id` counter and the handler tables. -/
structure ClientState where
  running : Bool
  response_futures : Registry
  nextId : Nat
  message_handlers : List Handler
  peer_update_handlers : List Handler
  event_handlers : List (String × List Handler)
deriving DecidableEq, Repr

/-- Lines 170-174 of `_handle_message` together with the surrounding
try/except: for a response/error frame, if the id is truthy and present in
`_response_futures`, `set_result` fulfils a pending future; calling
`set_result` on an already-resolved future raises InvalidStateError, which
the enclosing `except Exception` catches, leaving everything unchanged; an
absent or falsy id drops the frame. -/
def resolveFrame (futs : Registry) (f : Frame) : Registry :=
  match f.id with
  | none => futs
  | some cid =>
      if cid = "" then futs
      else
        match lookupFut futs cid with
        | some .pending => setFut futs cid (.resolved f)
        | some (.resolved _) => futs
        | none => futs

/-- Category-specific dispatch of an event frame (`_handle_message` lines
179-189): the `message` branch runs the message handlers when the `data`
payload is truthy, the `peer_update` branch runs the peer-update
handlers. -/
def specificEventTrace (st : ClientState) (f : Frame) : List (Nat × Bool) :=
  match f.event with
  | some "message" =>
      if (f.data.getD []) ≠ [] then st.message_handlers.map call_handler else []
  | some "peer_update" => st.peer_update_handlers.map call_handler
  | _ => []

/-- Generic dispatch of an event frame (`_handle_message` lines 192-193):
all handlers registered under the frame's event category. -/
def genericEventTrace (st : ClientState) (f : Frame) : List (Nat × Bool) :=
  match f.event with
  | some e => (lookupHandlers st.event_handlers e).map call_handler
  | none => []

/-- Model of `_handle_message`: classify the frame by `type`; `start` is
ignored, `ready` runs the handlers registered under the `ready` category,
response/error frames go to the correlation registry, event frames fan out
to the specific and then the generic subscribers.  Returns the new state
and the trace of handler invocations for this frame. -/
def handle_message (st : ClientState) (f : Frame) : ClientState × List (Nat × Bool) :=
  if f.type = "start" then (st, [])
  else if f.type = "ready" then
    (st, (lookupHandlers st.event_handlers "ready").map call_handler)
  else if f.type = "response" ∨ f.type = "error" then
    ({ st with response_futures := resolveFrame st.response_futures f }, [])
  else if f.type = "event" then
    (st, specificEventTrace st f ++ genericEventTrace st f)
  else (st, [])

/-- Model of the `_read_output` loop: while `_running`, read the next line
(the end of the list is end-of-stream, which breaks the loop); a line that
fails to decode is skipped with a diagnostic and the loop continues; a
decoded frame is passed to `_handle_message`.  On every exit path the loop
finally sets `_running = False`.  Returns the final state and, per
dispatched frame, its handler-invocation trace. -/
def read_output (st : ClientState) : List Line → ClientState × List (Frame × List (Nat × Bool))
  | [] => ({ st with running := false }, [])
  | l :: rest =>
      if st.running then
        match decodeLine l with
        | some f =>
            let s := handle_message st f
            let r := read_output s.1 rest
            (r.1, (f, s.2) :: r.2)
        | none => read_output st rest
      else ({ st with running := false }, [])

/-- Model of the await in `_send_command_async` (`asyncio.wait_for` on the
response future, with the `finally` pop): looking at the registry when the
waiter wakes — at resolution, or at the deadline — a resolved future
returns its frame, an unresolved one means the timeout fired and `None` is
returned; in both cases the `finally` clause pops the entry. -/
def awaitOutcome (futs : Registry) (cid : String) : Option Frame × Registry :=
  match lookupFut futs cid with
  | some (.resolved f) => (some f, popFut futs cid)
  | _ => (none, popFut futs cid)

/-- Does `pat` occur as a contiguous run of `l`? (auxiliary for python's
`in` substring test). -/
def hasInfixChars (pat : List Char) : List Char → Bool
  | [] => List.isPrefixOf pat []
  | c :: rest => List.isPrefixOf pat (c :: rest) || hasInfixChars pat rest

/-- Python's substring containment `pat in s`. -/
def strContainsSub (s pat : String) : Bool :=
  hasInfixChars pat.data s.data

/-- Result of one call to `_send_command_async` up to the write: the new
client state, the generated correlation id, the outgoing command text, and
the fact that the write is attempted (the code has no gate on `_running`). -/
structure SendStep where
  newState : ClientState
  genId : String
  outCommand : String
  writeAttempted : Bool
deriving Repr

/-- Lines 213-228 of `_send_command_async`: generate `cmd_<n>` and bump
`_next_id`; append ` --id=<generated>` to the command only when the text
does not already contain the substring `--id=`; register a pending future
under the generated id; send the command (unconditionally — there is no
check that the client is still running). -/
def send_command_async_step (st : ClientState) (command : String) : SendStep :=
  let cid := "cmd_" ++ toString st.nextId
  let cmd := if strContainsSub command "--id=" then command
             else command ++ " --id=" ++ cid
  { newState :=
      { st with
        nextId := st.nextId + 1
        response_futures := setFut st.response_futures cid .pending }
    genId := cid
    outCommand := cmd
    writeAttempted := true }

/-- Outcome of `CSendClient.connect` (lines 28-55): the process is spawned
with piped streams, a handler for the `ready` category is registered, and
the coroutine waits up to 5 seconds for the ready future.  `readyObserved`
abstracts whether that future was resolved within the timeout.  On success
`_running` is set; on `asyncio.TimeoutError` an exception is raised — no
code path calls `terminate` or `kill` on the spawned process. -/
structure ConnectResult where
  ok : Bool
  running : Bool
  processSpawned : Bool
  terminateCalled : Bool
  killCalled : Bool
deriving DecidableEq, Repr

/-- Model of `CSendClient.connect`: spawn, wait for readiness with a 5
second bound; the failure branch only raises. -/
def connect (readyObserved : Bool) : ConnectResult :=
  if readyObserved then
    { ok := true, running := true, processSpawned := true
      terminateCalled := false, killCalled := false }
  else
    { ok := false, running := false, processSpawned := true
      terminateCalled := false, killCalled := false }

/-- Behaviour of the child process during shutdown, abstracting the timing
of `process.wait()`: does it exit within the 2 second grace period after
the quit command, and does it ever exit after receiving the termination
signal. -/
structure ChildBehavior where
  exitsWithinGrace : Bool
  exitsAfterTerminate : Bool
deriving DecidableEq, Repr

/-- How a run of `disconnect` ends. -/
inductive DisconnectOutcome where
  | notRunning
  | voluntaryExit
  | terminatedExit
  | blocked
deriving DecidableEq, Repr

/-- Observable record of one `disconnect` run: which escalation actions
were performed and how the run ended. -/
structure DisconnectTrace where
  quitSent : Bool
  terminateCalled : Bool
  killCalled : Bool
  outcome : DisconnectOutcome
deriving DecidableEq, Repr

/-- Model of `CSendClient.disconnect` (lines 57-68): if `_running`, send
`/quit` and clear the flag; if a process handle exists, wait up to 2
seconds for it to exit; on timeout call `terminate()` and then
`await self.process.wait()` with no timeout — if the child never exits
after the termination signal this wait never returns (`blocked`).  No
branch calls `kill`. -/
def disconnect (running : Bool) (processPresent : Bool) (b : ChildBehavior) :
    DisconnectTrace :=
  if running then
    if processPresent then
      if b.exitsWithinGrace then
        { quitSent := true, terminateCalled := false, killCalled := false
          outcome := .voluntaryExit }
      else if b.exitsAfterTerminate then
        { quitSent := true, terminateCalled := true, killCalled := false
          outcome := .terminatedExit }
      else
        { quitSent := true, terminateCalled := true, killCalled := false
          outcome := .blocked }
    else
      { quitSent := true, terminateCalled := false, killCalled := false
        outcome := .voluntaryExit }
  else
    { quitSent := false, terminateCalled := false, killCalled := false
      outcome := .notRunning }

end Csend

namespace Chatbot

/-- Model of `CSendChatbot.check_rate_limit` (lines 220-236 of
`csend_chatbot.py`): with the current time `now`, keep only the recorded
timestamps strictly newer than `now - 60`; if at least `rateLimit` remain
the call returns `False` (and the pruned list is what stays stored);
otherwise `now` is appended and the call returns `True`.  Time is modelled
as integer time units. -/
def check_rate_limit (rateLimit : ℕ) (times : List ℤ) (now : ℤ) :
    Bool × List ℤ :=
  let pruned := times.filter (fun t => decide (now - 60 < t))
  if rateLimit ≤ pruned.length then (false, pruned)
  else (true, pruned ++ [now])

/-- Fold a sequence of arrival times through the rate limiter for one
identity, starting from an empty record; returns the final stored list and
the per-arrival decisions. -/
def runLimiter (rateLimit : ℕ) (arrivals : List ℤ) : List ℤ × List Bool :=
  arrivals.foldl
    (fun acc t =>
      let r := check_rate_limit rateLimit acc.1 t
      (r.2, acc.2 ++ [r.1]))
    ([], [])

/-- One conversation turn (a `{"role": ..., "content": ...}` dict). -/
structure Turn where
  role : String
  content : String
deriving DecidableEq, Repr

/-- Python's slice `l[-k:]`: the last `k` elements when `k > 0`, the whole
list when `k = 0`. -/
def takeLastPy (k : ℕ) (l : List Turn) : List Turn :=
  if k = 0 then l else l.drop (l.length - k)

/-- Lines 192-196 of `CSendChatbot.generate_response`: append the new turn
to the per-identity history; if the length now exceeds
`max_context * 2`, cut the history down to the slice
`conversations[username][-max_context:]`. -/
def appendTurn (maxContext : ℕ) (conv : List Turn) (t : Turn) : List Turn :=
  let conv2 := conv ++ [t]
  if maxContext * 2 < conv2.length then takeLastPy maxContext conv2 else conv2

/-- Concrete 20-turn conversation history, at the default cap. -/
def conv20 : List Turn :=
  (List.range 20).map (fun i => { role := "user", content := toString i })

/-- Concrete 21st turn. -/
def turn21 : Turn := { role := "user", content := "twentyone" }

end Chatbot

namespace Csend

/-- Freshly constructed client state, as `__init__` leaves it except that
the ready handshake has succeeded (`_running = True`). -/
def st0 : ClientState :=
  { running := true, response_futures := [], nextId := 1
    message_handlers := [], peer_update_handlers := [], event_handlers := [] }

/-- Concrete ready frame. -/
def fReady : Frame := { type := "ready" }

/-- Concrete response frame correlated to `cmd_1`. -/
def fResp : Frame := { type := "response", id := some "cmd_1" }

/-- Client state with one outstanding pending request, right before the
child's stdout closes. -/
def eofClient : ClientState :=
  { running := true, response_futures := [("cmd_1", .pending)], nextId := 2
    message_handlers := [], peer_update_handlers := [], event_handlers := [] }

/-- Client state with three subscribers registered for the `chat` event
category; the middle one raises when invoked. -/
def handlerClient : ClientState :=
  { running := true, response_futures := [], nextId := 1
    message_handlers := [], peer_update_handlers := []
    event_handlers := [("chat", [⟨0, false⟩, ⟨1, true⟩, ⟨2, false⟩])] }

/-- Concrete event frame of category `chat`. -/
def fChat : Frame := { type := "event", event := some "chat" }

/-- First back-to-back correlated send, with a caller-supplied id `a1`. -/
def sendA : SendStep := send_command_async_step st0 "/list --id=a1"

/-- Second back-to-back correlated send, with a caller-supplied id `a2`. -/
def sendB : SendStep := send_command_async_step sendA.newState "/status --id=a2"

/-- Response frame carrying the caller-supplied id `a2`. -/
def fRespA2 : Frame := { type := "response", id := some "a2" }

/-- Response frame carrying the caller-supplied id `a1`. -/
def fRespA1 : Frame := { type := "response", id := some "a1" }

end Csend

/-! Helper lemmas about the registry operations and the read loop. -/

namespace Csend

theorem lookupFut_setFut_self (l : Registry) (k : String) (v : FutState) :
    lookupFut (setFut l k v) k = some v := by
  induction l with
  | nil => simp [setFut, lookupFut]
  | cons p rest ih =>
      obtain ⟨k', w⟩ := p
      by_cases h : k' = k
      · simp [setFut, h, lookupFut]
      · simp [setFut, h, lookupFut, ih]

theorem lookupFut_setFut_ne (l : Registry) (k k' : String) (v : FutState)
    (h : k' ≠ k) : lookupFut (setFut l k v) k' = lookupFut l k' := by
  induction l with
  | nil => simp [setFut, lookupFut, Ne.symm h]
  | cons p rest ih =>
      obtain ⟨k₀, w⟩ := p
      by_cases h0 : k₀ = k
      · subst h0
        simp [setFut, lookupFut, Ne.symm h]
      · simp [setFut, h0, lookupFut, ih]

theorem setFut_setFut_self (l : Registry) (k : String) (v w : FutState) :
    setFut (setFut l k v) k w = setFut l k w := by
  induction l with
  | nil => simp [setFut]
  | cons p rest ih =>
      obtain ⟨k₀, u⟩ := p
      by_cases h0 : k₀ = k
      · simp [setFut, h0]
      · simp [setFut, h0, ih]

theorem popFut_setFut_fresh (l : Registry) (k : String) (v : FutState)
    (h : lookupFut l k = none) : popFut (setFut l k v) k = l := by
  induction l with
  | nil => simp [setFut, popFut]
  | cons p rest ih =>
      obtain ⟨k₀, u⟩ := p
      by_cases h0 : k₀ = k
      · simp [lookupFut, h0] at h
      · have h' : lookupFut rest k = none := by simpa [lookupFut, h0] using h
        simp [setFut, h0, popFut, ih h']

theorem resolveFrame_of_none (futs : Registry) (f : Frame) (cid : String)
    (hid : f.id = some cid) (h : lookupFut futs cid = none) :
    resolveFrame futs f = futs := by
  simp only [resolveFrame, hid, h]
  split <;> rfl

theorem resolveFrame_resolved (futs : Registry) (f : Frame) (cid : String)
    (g : Frame) (hid : f.id = some cid)
    (h : lookupFut futs cid = some (.resolved g)) :
    resolveFrame futs f = futs := by
  simp only [resolveFrame, hid, h]
  split <;> rfl

theorem resolveFrame_pending (futs : Registry) (f : Frame) (cid : String)
    (hid : f.id = some cid) (hne : cid ≠ "")
    (h : lookupFut futs cid = some .pending) :
    resolveFrame futs f = setFut futs cid (.resolved f) := by
  simp only [resolveFrame, hid, h, if_neg hne]

theorem handle_message_running (st : ClientState) (f : Frame) :
    (handle_message st f).1.running = st.running := by
  unfold handle_message
  repeat' split
  all_goals rfl

theorem handle_message_response (st : ClientState) (f : Frame)
    (h : f.type = "response" ∨ f.type = "error") :
    handle_message st f =
      ({ st with response_futures := resolveFrame st.response_futures f }, []) := by
  rcases h with h | h <;> simp [handle_message, h]

theorem read_output_running (lines : List Line) (st : ClientState) :
    (read_output st lines).1.running = false := by
  induction lines generalizing st with
  | nil => rfl
  | cons l rest ih =>
      by_cases h : st.running
      · cases hl : decodeLine l with
        | some f => simp [read_output, h, hl, ih]
        | none => simp [read_output, h, hl, ih]
      · simp [read_output, h]

theorem read_output_frames (lines : List Line) (st : ClientState)
    (h : st.running = true) :
    ((read_output st lines).2).map Prod.fst = lines.filterMap decodeLine := by
  induction lines generalizing st with
  | nil => simp [read_output]
  | cons l rest ih =>
      cases l with
      | json f =>
          have hr : (handle_message st f).1.running = true := by
            rw [handle_message_running]; exact h
          simp [read_output, h, decodeLine, ih _ hr]
      | malformed s => simp [read_output, h, decodeLine, ih _ h]

theorem awaitOutcome_pending (futs : Registry) (cid : String)
    (h : lookupFut futs cid = some .pending) :
    awaitOutcome futs cid = (none, popFut futs cid) := by
  simp [awaitOutcome, h]

theorem awaitOutcome_resolved (futs : Registry) (cid : String) (f : Frame)
    (h : lookupFut futs cid = some (.resolved f)) :
    awaitOutcome futs cid = (some f, popFut futs cid) := by
  simp [awaitOutcome, h]

theorem cmdId_ne_empty (n : Nat) : ("cmd_" ++ toString n) ≠ "" := by
  intro h
  have hlen := congrArg String.length h
  simp [String.length_append] at hlen
  have h4 : "cmd_".length = 4 := rfl
  rw [h4] at hlen
  exact absurd hlen.1 (by decide)

end Csend

/-! Claim theorems. -/

open Csend Chatbot

/-- C2 counterexample: a startup during which no ready frame is observed
within the 5 second timeout makes `connect` fail, but no terminate or kill
action is ever performed on the spawned child — contradicting the claim
that the process is terminated and never left running after the failure. -/
theorem c2_startup_timeout_counterexample :
    (Csend.connect false).ok = false ∧
    (Csend.connect false).processSpawned = true ∧
    ¬ ((Csend.connect false).terminateCalled = true ∨
        (Csend.connect false).killCalled = true) := by
  decide

/-- C2 (amended): when no ready frame is observed within the startup
timeout, `connect` fails with the startup-timeout exception and leaves
`_running` false, but the spawned child process is not terminated — the
failure path performs no terminate or kill action, so the child is left
running. -/
theorem c2_startup_timeout_no_terminate (r : Bool) (h : r = false) :
    (Csend.connect r).ok = false ∧
    (Csend.connect r).running = false ∧
    (Csend.connect r).processSpawned = true ∧
    (Csend.connect r).terminateCalled = false ∧
    (Csend.connect r).killCalled = false := by
  subst h
  decide

/-- Witness for the amended C2 theorem at the concrete no-ready startup. -/
theorem c2_startup_timeout_no_terminate_witness :
    false = false ∧
    ((Csend.connect false).ok = false ∧
      (Csend.connect false).running = false ∧
      (Csend.connect false).processSpawned = true ∧
      (Csend.connect false).terminateCalled = false ∧
      (Csend.connect false).killCalled = false) :=
  ⟨rfl, c2_startup_timeout_no_terminate false rfl⟩

/-- C5 counterexample: a child that neither exits within the 2 second
grace period after `/quit` nor ever exits after the termination signal
makes `disconnect` block indefinitely on the unbounded `process.wait()`,
and no force-kill step exists — contradicting the claim that every step is
bounded and shutdown never blocks, for every behaviour of the child. -/
theorem c5_shutdown_counterexample :
    (Csend.disconnect true true ⟨false, false⟩).outcome
        = Csend.DisconnectOutcome.blocked ∧
    (Csend.disconnect true true ⟨false, false⟩).killCalled = false := by
  decide

/-- C5 (amended): `disconnect` sends `/quit` and waits up to the 2 second
grace period; if the child is still alive it sends the termination signal
and then waits with no bound; there is no force-kill step, so when the
child never exits after the termination signal the shutdown blocks
indefinitely. -/
theorem c5_shutdown_escalation (b : Csend.ChildBehavior) :
    (Csend.disconnect true true b).quitSent = true ∧
    (Csend.disconnect true true b).killCalled = false ∧
    (b.exitsWithinGrace = true →
      (Csend.disconnect true true b).outcome = Csend.DisconnectOutcome.voluntaryExit ∧
      (Csend.disconnect true true b).terminateCalled = false) ∧
    (b.exitsWithinGrace = false →
      (Csend.disconnect true true b).terminateCalled = true) ∧
    (b.exitsWithinGrace = false → b.exitsAfterTerminate = true →
      (Csend.disconnect true true b).outcome = Csend.DisconnectOutcome.terminatedExit) ∧
    (b.exitsWithinGrace = false → b.exitsAfterTerminate = false →
      (Csend.disconnect true true b).outcome = Csend.DisconnectOutcome.blocked) := by
  obtain ⟨g, t⟩ := b
  cases g <;> cases t <;> decide

/-- Witness for the amended C5 theorem: a child ignoring `/quit` but
exiting after the termination signal. -/
theorem c5_shutdown_escalation_witness :
    (Csend.ChildBehavior.mk false true).exitsWithinGrace = false ∧
    (Csend.ChildBehavior.mk false true).exitsAfterTerminate = true ∧
    (Csend.disconnect true true ⟨false, true⟩).outcome
        = Csend.DisconnectOutcome.terminatedExit :=
  ⟨rfl, rfl, (c5_shutdown_escalation ⟨false, true⟩).2.2.2.2.1 rfl rfl⟩

/-- C3: for every input stream, the read loop dispatches exactly the valid
frames in stream order; malformed lines are skipped silently and never
prevent processing of subsequent valid frames. -/
theorem c3_read_loop_dispatch (st : Csend.ClientState) (h : st.running = true)
    (pre post : List Csend.Line) (bad : String) :
    ((Csend.read_output st (pre ++ Csend.Line.malformed bad :: post)).2).map Prod.fst
        = pre.filterMap Csend.decodeLine ++ post.filterMap Csend.decodeLine ∧
    ∀ lines : List Csend.Line,
      ((Csend.read_output st lines).2).map Prod.fst
          = lines.filterMap Csend.decodeLine := by
  constructor
  · rw [Csend.read_output_frames _ _ h]
    simp [Csend.decodeLine]
  · intro lines
    exact Csend.read_output_frames lines st h

/-- Witness for C3: two valid frames with a malformed line between them
are dispatched as exactly those two frames, in order. -/
theorem c3_read_loop_dispatch_witness :
    Csend.st0.running = true ∧
    ((Csend.read_output Csend.st0
        ([Csend.Line.json Csend.fReady] ++
          Csend.Line.malformed "notjson" :: [Csend.Line.json Csend.fResp])).2).map Prod.fst
      = [Csend.Line.json Csend.fReady].filterMap Csend.decodeLine ++
          [Csend.Line.json Csend.fResp].filterMap Csend.decodeLine :=
  ⟨rfl,
    (c3_read_loop_dispatch Csend.st0 rfl [Csend.Line.json Csend.fReady]
        [Csend.Line.json Csend.fResp] "notjson").1⟩

/-- C6 counterexample: with one outstanding pending request, closing the
child's stdout (end-of-stream) stops the read loop but leaves the pending
entry untouched: the await then yields `none`, the very same outcome as an
ordinary response timeout (there is no ClientClosed error in the code),
and a further command is still written and registered — contradicting the
claim that outstanding awaits fail with ClientClosed and that no further
commands are accepted. -/
theorem c6_client_closed_counterexample :
    (Csend.read_output Csend.eofClient []).1.running = false ∧
    (Csend.read_output Csend.eofClient []).1.response_futures
        = [("cmd_1", Csend.FutState.pending)] ∧
    (Csend.awaitOutcome
        (Csend.read_output Csend.eofClient []).1.response_futures "cmd_1").1 = none ∧
    (Csend.send_command_async_step
        (Csend.read_output Csend.eofClient []).1 "/status").writeAttempted = true ∧
    Csend.lookupFut
        (Csend.send_command_async_step
          (Csend.read_output Csend.eofClient []).1 "/status").newState.response_futures
        "cmd_2" = some Csend.FutState.pending := by
  decide

/-- C6 (amended): when the child's output stream closes the read loop
clears `_running` and stops, but outstanding awaits are not failed with
any distinct closed-client error — each pending request is left in the
registry and its await later yields `none`, exactly the ordinary
response-timeout outcome — and command sends are not gated on the closure:
a subsequent send still attempts the write and registers a fresh pending
future. -/
theorem c6_stream_close_behavior (st : Csend.ClientState)
    (lines : List Csend.Line) (cid command : String)
    (hpend : Csend.lookupFut (Csend.read_output st lines).1.response_futures cid
        = some Csend.FutState.pending) :
    (Csend.read_output st lines).1.running = false ∧
    Csend.awaitOutcome (Csend.read_output st lines).1.response_futures cid
        = (none, Csend.popFut (Csend.read_output st lines).1.response_futures cid) ∧
    (Csend.send_command_async_step (Csend.read_output st lines).1 command).writeAttempted
        = true ∧
    Csend.lookupFut
        (Csend.send_command_async_step
          (Csend.read_output st lines).1 command).newState.response_futures
        (Csend.send_command_async_step (Csend.read_output st lines).1 command).genId
      = some Csend.FutState.pending :=
  ⟨Csend.read_output_running lines st,
    Csend.awaitOutcome_pending _ _ hpend,
    rfl,
    Csend.lookupFut_setFut_self _ _ _⟩

/-- Witness for the amended C6 theorem at the concrete post-closure
state. -/
theorem c6_stream_close_behavior_witness :
    Csend.lookupFut (Csend.read_output Csend.eofClient []).1.response_futures "cmd_1"
        = some Csend.FutState.pending ∧
    Csend.awaitOutcome (Csend.read_output Csend.eofClient []).1.response_futures "cmd_1"
        = (none,
            Csend.popFut (Csend.read_output Csend.eofClient []).1.response_futures "cmd_1") :=
  ⟨by decide, (c6_stream_close_behavior Csend.eofClient [] "cmd_1" "/status" (by decide)).2.1⟩

/-- C7: for an event frame, every subscriber registered for its category
is invoked in registration order even when one of them raises (the raise
is swallowed by `_call_handler`): the subscribers after the failing one
still run, the client state is untouched, and the read loop continues past
the frame to dispatch subsequent lines. -/
theorem c7_subscriber_exception_isolation
    (st : Csend.ClientState) (f : Csend.Frame) (e : String)
    (hty : f.type = "event") (hev : f.event = some e)
    (pre post : List Csend.Handler) (h : Csend.Handler)
    (hdec : Csend.lookupHandlers st.event_handlers e = pre ++ h :: post)
    (hraises : h.raises = true)
    (hrun : st.running = true) :
    (Csend.handle_message st f).2 =
        Csend.specificEventTrace st f ++
          (pre.map Csend.call_handler ++
            (h.hid, true) :: post.map Csend.call_handler) ∧
    (Csend.handle_message st f).1 = st ∧
    ∀ rest : List Csend.Line,
      ((Csend.read_output st (Csend.Line.json f :: rest)).2).map Prod.fst
          = f :: rest.filterMap Csend.decodeLine := by
  have hmsg : Csend.handle_message st f
      = (st, Csend.specificEventTrace st f ++ Csend.genericEventTrace st f) := by
    simp [Csend.handle_message, hty]
  refine ⟨?_, by rw [hmsg], ?_⟩
  · rw [hmsg]
    simp [Csend.genericEventTrace, hev, hdec, Csend.call_handler, hraises]
  · intro rest
    rw [Csend.read_output_frames _ _ hrun]
    simp [Csend.decodeLine]

/-- Witness for C7: three subscribers on category `chat`, the middle one
raising; all three are invoked in order and the loop continues past a
following malformed line. -/
theorem c7_subscriber_exception_isolation_witness :
    Csend.lookupHandlers Csend.handlerClient.event_handlers "chat"
        = [⟨0, false⟩] ++ (⟨1, true⟩ : Csend.Handler) :: [⟨2, false⟩] ∧
    (Csend.handle_message Csend.handlerClient Csend.fChat).2 =
        Csend.specificEventTrace Csend.handlerClient Csend.fChat ++
          ([(⟨0, false⟩ : Csend.Handler)].map Csend.call_handler ++
            ((1 : Nat), true) :: [(⟨2, false⟩ : Csend.Handler)].map Csend.call_handler) ∧
    ((Csend.read_output Csend.handlerClient
        (Csend.Line.json Csend.fChat :: [Csend.Line.malformed "notjson"])).2).map Prod.fst
      = Csend.fChat :: [Csend.Line.malformed "notjson"].filterMap Csend.decodeLine := by
  have H := c7_subscriber_exception_isolation Csend.handlerClient Csend.fChat "chat"
    rfl rfl [⟨0, false⟩] [⟨2, false⟩] ⟨1, true⟩ (by decide) rfl rfl
  exact ⟨by decide, H.1, H.2.2 [Csend.Line.malformed "notjson"]⟩

/-- C8: the rate-limit check prunes entries older than the 60-time-unit
window before counting, on every evaluation; with the default limit of 20,
a 21st qualifying event inside the window is flagged, and once every
recorded event has aged past the window the same identity is allowed
again; concretely, 21 events at times 0..20 yield 20 accepts then a
reject, and a further event at time 100 is allowed. -/
theorem c8_rate_limit_window (times : List ℤ) (now : ℤ) :
    (∀ t ∈ (Chatbot.check_rate_limit 20 times now).2, now - 60 < t) ∧
    (times.length = 20 → (∀ t ∈ times, now - 60 < t) →
      (Chatbot.check_rate_limit 20 times now).1 = false ∧
      (Chatbot.check_rate_limit 20 times now).2 = times) ∧
    ((∀ t ∈ times, t ≤ now - 60) →
      (Chatbot.check_rate_limit 20 times now).1 = true) ∧
    (Chatbot.runLimiter 20 ((List.range 21).map (fun i => (i : ℤ)))).2 =
      List.replicate 20 true ++ [false] ∧
    (Chatbot.check_rate_limit 20
        (Chatbot.runLimiter 20 ((List.range 21).map (fun i => (i : ℤ)))).1 100).1
      = true := by
  refine ⟨?_, ?_, ?_, by decide, by decide⟩
  · intro t ht
    simp only [Chatbot.check_rate_limit] at ht
    split at ht
    · have := List.of_mem_filter ht
      simpa using this
    · rcases List.mem_append.mp ht with h1 | h2
      · have := List.of_mem_filter h1
        simpa using this
      · simp only [List.mem_singleton] at h2
        subst h2
        omega
  · intro hlen hall
    have hfil : times.filter (fun t => decide (now - 60 < t)) = times :=
      List.filter_eq_self.mpr (by intro a ha; simpa using hall a ha)
    simp [Chatbot.check_rate_limit, hfil, hlen]
  · intro hall
    have hfil : times.filter (fun t => decide (now - 60 < t)) = [] := by
      rw [List.filter_eq_nil_iff]
      intro a ha
      have := hall a ha
      simp
      omega
    simp [Chatbot.check_rate_limit, hfil]

/-- Witness for C8: twenty in-window events recorded at time 0 flag the
next event at time 0, and a record whose entries have all aged out allows
the event again. -/
theorem c8_rate_limit_window_witness :
    (List.replicate 20 (0 : ℤ)).length = 20 ∧
    (∀ t ∈ List.replicate 20 (0 : ℤ), (0 : ℤ) - 60 < t) ∧
    (Chatbot.check_rate_limit 20 (List.replicate 20 (0 : ℤ)) 0).1 = false ∧
    (∀ t ∈ List.replicate 20 (0 : ℤ), t ≤ (100 : ℤ) - 60) ∧
    (Chatbot.check_rate_limit 20 (List.replicate 20 (0 : ℤ)) 100).1 = true := by
  refine ⟨by decide, by decide, ?_, by decide, ?_⟩
  · exact ((c8_rate_limit_window (List.replicate 20 (0 : ℤ)) 0).2.1
      (by decide) (by decide)).1
  · exact (c8_rate_limit_window (List.replicate 20 (0 : ℤ)) 100).2.2.1 (by decide)

/-- C9 counterexample: appending a 21st turn to a history of exactly 20
turns leaves 21 turns with the oldest still first — the history is not
trimmed at the cap, contradicting the claim that the oldest entry is
dropped and exactly 20 turns remain. -/
theorem c9_history_cap_counterexample :
    (Chatbot.appendTurn 20 Chatbot.conv20 Chatbot.turn21).length = 21 ∧
    (Chatbot.appendTurn 20 Chatbot.conv20 Chatbot.turn21).head? =
      some { role := "user", content := "0" } ∧
    ¬ (Chatbot.appendTurn 20 Chatbot.conv20 Chatbot.turn21).length = 20 := by
  decide

/-- C9 (amended): the history is trimmed only when an append makes its
length exceed `max_context * 2 = 40`, at which point it is cut to the most
recent 20 turns; below that threshold the append keeps every turn (so a
21st turn does not drop the oldest).  In all cases the newest turn is last
and the result is a suffix of the untrimmed history. -/
theorem c9_history_trim (conv : List Chatbot.Turn) (t : Chatbot.Turn) :
    (conv.length + 1 ≤ 40 → Chatbot.appendTurn 20 conv t = conv ++ [t]) ∧
    (40 < conv.length + 1 → (Chatbot.appendTurn 20 conv t).length = 20) ∧
    (Chatbot.appendTurn 20 conv t).getLast? = some t ∧
    Chatbot.appendTurn 20 conv t <:+ conv ++ [t] := by
  have hlen : (conv ++ [t]).length = conv.length + 1 := by simp
  by_cases hbig : 20 * 2 < (conv ++ [t]).length
  · have happ : Chatbot.appendTurn 20 conv t
        = (conv ++ [t]).drop ((conv ++ [t]).length - 20) := by
      simp only [Chatbot.appendTurn, Chatbot.takeLastPy]
      rw [if_pos hbig, if_neg (by decide : ¬ (20 = 0))]
    have hk : (conv ++ [t]).length - 20 ≤ conv.length := by omega
    have hdrop : (conv ++ [t]).drop ((conv ++ [t]).length - 20)
        = conv.drop ((conv ++ [t]).length - 20) ++ [t] :=
      List.drop_append_of_le_length hk
    refine ⟨?_, ?_, ?_, ?_⟩
    · intro hle
      exfalso
      omega
    · intro _
      rw [happ, List.length_drop]
      omega
    · rw [happ, hdrop, List.getLast?_concat]
    · rw [happ]
      exact List.drop_suffix _ _
  · have happ : Chatbot.appendTurn 20 conv t = conv ++ [t] := by
      simp only [Chatbot.appendTurn]
      rw [if_neg hbig]
    refine ⟨fun _ => happ, ?_, ?_, ?_⟩
    · intro hgt
      exfalso
      omega
    · rw [happ]
      exact List.getLast?_concat conv
    · rw [happ]

/-- Witness for the amended C9 theorem: appending the 21st turn to the
20-turn history keeps all 21 turns, newest last. -/
theorem c9_history_trim_witness :
    Chatbot.conv20.length + 1 ≤ 40 ∧
    Chatbot.appendTurn 20 Chatbot.conv20 Chatbot.turn21
        = Chatbot.conv20 ++ [Chatbot.turn21] :=
  ⟨by decide, (c9_history_trim Chatbot.conv20 Chatbot.turn21).1 (by decide)⟩

/-- C1: for a correlation id registered by a command send, the caller
observes at most one outcome.  If a matching response/error frame arrives
before the deadline, the await returns that frame and the registry entry
is removed (the registry returns to its pre-registration state, in which
the id is absent); a second resolution for the same id — whether it
arrives before the waiter runs (InvalidStateError swallowed) or after the
entry was removed — leaves the registry unchanged.  If the deadline passes
unresolved, the await yields the timeout outcome `none`, the entry is
removed, and a late resolution is dropped silently. -/
theorem c1_correlation_single_outcome
    (st st1 : Csend.ClientState) (command cid : String) (s : Csend.SendStep)
    (g h : Csend.Frame)
    (hs : s = Csend.send_command_async_step st command)
    (hcid : cid = s.genId)
    (hfresh : Csend.lookupFut st.response_futures cid = none)
    (hgty : g.type = "response" ∨ g.type = "error") (hgid : g.id = some cid)
    (hhty : h.type = "response" ∨ h.type = "error") (hhid : h.id = some cid)
    (hst1 : st1 = (Csend.handle_message s.newState g).1) :
    Csend.awaitOutcome st1.response_futures cid = (some g, st.response_futures) ∧
    Csend.lookupFut st.response_futures cid = none ∧
    (Csend.handle_message st1 h).1.response_futures = st1.response_futures ∧
    (Csend.handle_message { st1 with response_futures := st.response_futures } h).1.response_futures
        = st.response_futures ∧
    Csend.awaitOutcome s.newState.response_futures cid = (none, st.response_futures) := by
  subst hs
  subst hcid
  subst hst1
  have hne : (Csend.send_command_async_step st command).genId ≠ "" :=
    Csend.cmdId_ne_empty st.nextId
  have hA : (Csend.send_command_async_step st command).newState.response_futures
      = Csend.setFut st.response_futures
          (Csend.send_command_async_step st command).genId .pending := rfl
  have hst1fut :
      (Csend.handle_message (Csend.send_command_async_step st command).newState g).1.response_futures
        = Csend.setFut st.response_futures
            (Csend.send_command_async_step st command).genId (.resolved g) := by
    rw [Csend.handle_message_response _ _ hgty]
    show Csend.resolveFrame
        (Csend.send_command_async_step st command).newState.response_futures g = _
    rw [hA, Csend.resolveFrame_pending _ _ _ hgid hne
          (Csend.lookupFut_setFut_self _ _ _),
        Csend.setFut_setFut_self]
  refine ⟨?_, hfresh, ?_, ?_, ?_⟩
  · rw [hst1fut,
      Csend.awaitOutcome_resolved _ _ g (Csend.lookupFut_setFut_self _ _ _),
      Csend.popFut_setFut_fresh _ _ _ hfresh]
  · rw [Csend.handle_message_response _ _ hhty]
    show Csend.resolveFrame
        (Csend.handle_message (Csend.send_command_async_step st command).newState g).1.response_futures h
      = _
    rw [hst1fut]
    exact Csend.resolveFrame_resolved _ _ _ g hhid (Csend.lookupFut_setFut_self _ _ _)
  · rw [Csend.handle_message_response _ _ hhty]
    show Csend.resolveFrame st.response_futures h = st.response_futures
    exact Csend.resolveFrame_of_none _ _ _ hhid hfresh
  · rw [hA,
      Csend.awaitOutcome_pending _ _ (Csend.lookupFut_setFut_self _ _ _),
      Csend.popFut_setFut_fresh _ _ _ hfresh]

/-- Witness for C1 at a fresh client, the command `/list`, and concrete
response/error frames correlated to the generated id `cmd_1`. -/
theorem c1_correlation_single_outcome_witness :
    Csend.lookupFut Csend.st0.response_futures "cmd_1" = none ∧
    Csend.awaitOutcome
        ((Csend.handle_message
            (Csend.send_command_async_step Csend.st0 "/list").newState
            Csend.fResp).1).response_futures "cmd_1"
      = (some Csend.fResp, Csend.st0.response_futures) ∧
    Csend.awaitOutcome
        (Csend.send_command_async_step Csend.st0 "/list").newState.response_futures "cmd_1"
      = (none, Csend.st0.response_futures) := by
  have H := c1_correlation_single_outcome Csend.st0
    ((Csend.handle_message
        (Csend.send_command_async_step Csend.st0 "/list").newState Csend.fResp).1)
    "/list" "cmd_1" (Csend.send_command_async_step Csend.st0 "/list")
    Csend.fResp Csend.fResp rfl (by decide) (by decide)
    (Or.inl rfl) (by decide) (Or.inl rfl) (by decide) rfl
  exact ⟨by decide, H.1, H.2.2.2.2⟩

/-- C10: each correlated send registers a fresh generated identifier
`cmd_<n>` (with the counter strictly increasing across calls) as the
awaited slot; the generated id is appended to the outgoing command exactly
when the text does not already contain `--id=`.  When the caller supplies
their own `--id` token, the outgoing command is unchanged (so the
generated id never appears in it) and the await stays keyed by the
generated id: a response frame carrying the caller-supplied id leaves the
slot pending, while one carrying the generated id fulfils it. -/
theorem c10_generated_id_keying
    (st : Csend.ClientState) (command : String) (s : Csend.SendStep)
    (hs : s = Csend.send_command_async_step st command)
    (hin : Csend.strContainsSub command "--id=" = true)
    (hnotin : Csend.strContainsSub command s.genId = false)
    (g : Csend.Frame) (cid2 : String)
    (hgid : g.id = some cid2) (hne2 : cid2 ≠ s.genId)
    (hfresh2 : Csend.lookupFut st.response_futures cid2 = none)
    (hgty : g.type = "response" ∨ g.type = "error") :
    s.genId = "cmd_" ++ toString st.nextId ∧
    s.newState.nextId = st.nextId + 1 ∧
    (Csend.send_command_async_step s.newState command).genId
        = "cmd_" ++ toString (st.nextId + 1) ∧
    Csend.lookupFut s.newState.response_futures s.genId = some .pending ∧
    s.outCommand = command ∧
    Csend.strContainsSub s.outCommand s.genId = false ∧
    (∀ c2 : String, Csend.strContainsSub c2 "--id=" = false →
      (Csend.send_command_async_step st c2).outCommand
        = c2 ++ " --id=" ++ (Csend.send_command_async_step st c2).genId) ∧
    Csend.lookupFut
        (Csend.handle_message s.newState g).1.response_futures s.genId
      = some .pending ∧
    (∀ r : Csend.Frame, r.id = some s.genId →
      (r.type = "response" ∨ r.type = "error") →
      Csend.lookupFut
          (Csend.handle_message s.newState r).1.response_futures s.genId
        = some (.resolved r)) := by
  subst hs
  have hne : (Csend.send_command_async_step st command).genId ≠ "" :=
    Csend.cmdId_ne_empty st.nextId
  have hA : (Csend.send_command_async_step st command).newState.response_futures
      = Csend.setFut st.response_futures
          (Csend.send_command_async_step st command).genId .pending := rfl
  have hout : (Csend.send_command_async_step st command).outCommand = command := by
    simp [Csend.send_command_async_step, hin]
  refine ⟨rfl, rfl, rfl, ?_, hout, ?_, ?_, ?_, ?_⟩
  · rw [hA]
    exact Csend.lookupFut_setFut_self _ _ _
  · rw [hout]
    exact hnotin
  · intro c2 h2
    simp [Csend.send_command_async_step, h2]
  · rw [Csend.handle_message_response _ _ hgty]
    show Csend.lookupFut
        (Csend.resolveFrame
          (Csend.send_command_async_step st command).newState.response_futures g) _
      = _
    by_cases hz : cid2 = ""
    · subst hz
      have : Csend.resolveFrame
          (Csend.send_command_async_step st command).newState.response_futures g
        = (Csend.send_command_async_step st command).newState.response_futures := by
        simp [Csend.resolveFrame, hgid]
      rw [this, hA]
      exact Csend.lookupFut_setFut_self _ _ _
    · have hlook2 : Csend.lookupFut
          (Csend.send_command_async_step st command).newState.response_futures cid2
          = none := by
        rw [hA, Csend.lookupFut_setFut_ne _ _ _ _ hne2]
        exact hfresh2
      rw [Csend.resolveFrame_of_none _ _ _ hgid hlook2, hA]
      exact Csend.lookupFut_setFut_self _ _ _
  · intro r hrid hrty
    rw [Csend.handle_message_response _ _ hrty]
    show Csend.lookupFut
        (Csend.resolveFrame
          (Csend.send_command_async_step st command).newState.response_futures r) _
      = _
    rw [hA, Csend.resolveFrame_pending _ _ _ hrid hne
          (Csend.lookupFut_setFut_self _ _ _),
        Csend.setFut_setFut_self]
    exact Csend.lookupFut_setFut_self _ _ _

/-- Witness for C10 at a fresh client and the command `/list --id=a1`:
the await is keyed `cmd_1`, the outgoing command is unchanged, a response
carrying `a1` leaves the slot pending, and one carrying `cmd_1` fulfils
it. -/
theorem c10_generated_id_keying_witness :
    Csend.strContainsSub "/list --id=a1" "--id=" = true ∧
    Csend.sendA.genId = "cmd_1" ∧
    Csend.sendA.outCommand = "/list --id=a1" ∧
    Csend.lookupFut
        (Csend.handle_message Csend.sendA.newState Csend.fRespA1).1.response_futures
        Csend.sendA.genId = some .pending ∧
    Csend.lookupFut
        (Csend.handle_message Csend.sendA.newState Csend.fResp).1.response_futures
        Csend.sendA.genId = some (.resolved Csend.fResp) := by
  have H := c10_generated_id_keying Csend.st0 "/list --id=a1" Csend.sendA rfl
    (by decide) (by decide) Csend.fRespA1 "a1" (by decide) (by decide)
    (by decide) (Or.inl rfl)
  exact ⟨by decide, by decide, H.2.2.2.2.1,
    H.2.2.2.2.2.2.2.1,
    H.2.2.2.2.2.2.2.2 Csend.fResp (by decide) (Or.inl rfl)⟩

/-- C4 (code evaluated at the failing input): two commands sent
back-to-back with caller-supplied ids `a1` and `a2` register awaits under
the generated ids `cmd_1` and `cmd_2`; when the response frame carrying
`a2` arrives first, it resolves nothing (the registry is unchanged and the
`a2` command's slot `cmd_2` is still pending), the frame carrying `a1` is
likewise dropped, and both awaits then yield the timeout outcome `none` —
the `a2` await never resolves with its frame, contrary to the claim. -/
theorem c4_caller_id_never_resolves :
    Csend.sendA.genId = "cmd_1" ∧
    Csend.sendA.outCommand = "/list --id=a1" ∧
    Csend.sendB.genId = "cmd_2" ∧
    Csend.sendB.outCommand = "/status --id=a2" ∧
    Csend.lookupFut Csend.sendB.newState.response_futures "cmd_2"
        = some Csend.FutState.pending ∧
    (Csend.handle_message Csend.sendB.newState Csend.fRespA2).1.response_futures
        = Csend.sendB.newState.response_futures ∧
    (Csend.handle_message
        (Csend.handle_message Csend.sendB.newState Csend.fRespA2).1
        Csend.fRespA1).1.response_futures
      = Csend.sendB.newState.response_futures ∧
    (Csend.awaitOutcome
        (Csend.handle_message Csend.sendB.newState Csend.fRespA2).1.response_futures
        "cmd_2").1 = none ∧
    (Csend.awaitOutcome
        (Csend.handle_message Csend.sendB.newState Csend.fRespA2).1.response_futures
        "cmd_1").1 = none := by
  decide
